import Mathlib

/-!
Shallow embedding of the SocialNetwork repository
(src/Accounts/views.py and src/Posts/serializers.py).

The relational store is modelled explicitly: users as a list of `User`
rows, follow edges (`UserFriends`) as a list of `(user, friend)` id
pairs, posts as a list of `PostObj` rows.  Each Django/DRF request
handler becomes a pure function from the relevant state (plus the
request data) to a response together with the updated state.

Python typing matters for `add_friend` / `remove_friend`: the URL
keyword `pk` is a string while `request.user.id` is an integer, and
Python `==` between a `str` and an `int` is `False`.  This is embedded
with the small `PyVal` type and `pyEq`.
-/

namespace SocialNetwork

/-- A Python runtime value as far as the `pk` comparisons in
`UsersViewSet.add_friend` / `remove_friend` need: a string (the URL
keyword argument) or an integer (a model primary key). -/
inductive PyVal where
  | vstr (s : String)
  | vint (n : Nat)
deriving Repr, DecidableEq

/-- Python `==` on `PyVal`: values of different runtime types compare
unequal (`"5" == 5` is `False` in Python). -/
def pyEq : PyVal → PyVal → Bool
  | PyVal.vstr a, PyVal.vstr b => a == b
  | PyVal.vint a, PyVal.vint b => a == b
  | _, _ => false

/-- One decimal digit of a Python `int(...)` coercion (`none` when the
character is not a digit). -/
def charDigit? (c : Char) : Option Nat :=
  if 48 ≤ c.toNat ∧ c.toNat ≤ 57 then some (c.toNat - 48) else none

/-- Accumulating decimal parse of a character list. -/
def parseNatDigits : List Char → Nat → Option Nat
  | [], acc => some acc
  | c :: cs, acc =>
    match charDigit? c with
    | none => none
    | some d => parseNatDigits cs (10 * acc + d)

/-- Python `int(s)` on a string of decimal digits: fails on the empty
string or on any non-digit character. -/
def strToNat? (s : String) : Option Nat :=
  if s.data.isEmpty then none else parseNatDigits s.data 0

/-- Django coercion of a value into an integer foreign-key column
(`friend_id=pk`): an integer passes through, a string is parsed as a
decimal number, anything else raises (`none`). -/
def resolve_id : PyVal → Option Nat
  | PyVal.vstr s => strToNat? s
  | PyVal.vint n => some n

/-- A `User` row (Accounts/models.py is summarised by spec section 3:
unique username, email, password hash, active flag, last-login and
last-request timestamps).  The password field stands for the stored
hash; `check_password` below compares against it. -/
structure User where
  id : Nat
  username : String
  email : String
  password : String
  is_active : Bool
  last_login : Nat
  last_request : Nat
deriving Repr, DecidableEq

/-- A DRF Response whose body holds a status and a message field.
`http` is the HTTP status code (200 when the code passes none). -/
structure ApiResponse where
  http : Nat
  status : String
  message : String
deriving Repr, DecidableEq

/-- A `Post` row: owner id and the liked-by set (ids of users that
liked the post). -/
structure PostObj where
  id : Nat
  author_id : Nat
  text : String
  liked_by : List Nat
deriving Repr, DecidableEq

/-- The backing store the handlers touch: user rows, `UserFriends`
directed edges `(user, friend)`, post rows. -/
structure DBState where
  users : List User
  edges : List (Nat × Nat)
  posts : List PostObj
deriving Repr, DecidableEq

/-- `UserFriends.objects.get_or_create(user=uid, friend_id=fid)`:
returns the new edge list and the `created` flag (`friends[1]`). -/
def get_or_create (uid fid : Nat) (edges : List (Nat × Nat)) :
    List (Nat × Nat) × Bool :=
  if (uid, fid) ∈ edges then (edges, false)
  else (edges ++ [(uid, fid)], true)

/-- `UserFriends.objects.filter(user=uid, friend_id=fid).delete()`:
returns the remaining edges and the number of deleted rows
(`friends[0]`). -/
def delete_edges (uid fid : Nat) (edges : List (Nat × Nat)) :
    List (Nat × Nat) × Nat :=
  (edges.filter (fun e => e ≠ (uid, fid)), edges.count (uid, fid))

/-- `UsersViewSet.add_friend` (views.py lines 98-113).  `uid` is
`request.user.id`, `pk` the URL keyword argument (a string in actual
routing).  `none` models an unhandled exception from coercing a
non-numeric `pk` into `friend_id`. -/
def add_friend (uid : Nat) (pk : PyVal) (edges : List (Nat × Nat)) :
    Option (ApiResponse × List (Nat × Nat)) :=
  if pyEq pk (PyVal.vstr "me") || pyEq pk (PyVal.vint uid) then
    some ({ http := 200, status := "error",
            message := "you can\x27t befriend yourself" }, edges)
  else
    match resolve_id pk with
    | none => none
    | some fid =>
      let friends := get_or_create uid fid edges
      if friends.2 then
        some ({ http := 200, status := "success",
                message := "friend added" }, friends.1)
      else
        some ({ http := 200, status := "error",
                message := "user already your friend" }, friends.1)

/-- `UsersViewSet.remove_friend` (views.py lines 115-130). -/
def remove_friend (uid : Nat) (pk : PyVal) (edges : List (Nat × Nat)) :
    Option (ApiResponse × List (Nat × Nat)) :=
  if pyEq pk (PyVal.vstr "me") || pyEq pk (PyVal.vint uid) then
    some ({ http := 200, status := "error",
            message := "you can\x27t remove yourself from friends" }, edges)
  else
    match resolve_id pk with
    | none => none
    | some fid =>
      let friends := delete_edges uid fid edges
      if friends.2 ≠ 0 then
        some ({ http := 200, status := "success",
                message := "friend removed" }, friends.1)
      else
        some ({ http := 200, status := "error",
                message := "user is not your friend" }, friends.1)

/-- The gating flag a relationship view filters on (the
`serializer_filter` string passed to `_list_response`). -/
inductive FilterKey where
  | is_friends
  | is_follower
  | is_followed
deriving Repr, DecidableEq

/-- A serialized user as produced by the list serializer: the row data
plus the three derived relationship flags. -/
structure SerializedUser where
  id : Nat
  username : String
  is_follower : Bool
  is_followed : Bool
  is_friends : Bool
deriving Repr, DecidableEq

/-- Modelled from the spec: `UserSerializer` lives in
Accounts/serializers.py, which is not part of the sources; spec
section 3 defines the derived flags for a (viewer, candidate) pair as
`is_follower` = edge(candidate → viewer) exists, `is_followed` =
edge(viewer → candidate) exists, `is_friends` = both hold. -/
def serializeUser (edges : List (Nat × Nat)) (viewer : Nat) (u : User) :
    SerializedUser :=
  { id := u.id
    username := u.username
    is_follower := decide ((u.id, viewer) ∈ edges)
    is_followed := decide ((viewer, u.id) ∈ edges)
    is_friends := decide ((u.id, viewer) ∈ edges) && decide ((viewer, u.id) ∈ edges) }

/-- Field access `user[filter_key]` on a serialized user. -/
def flagOf : FilterKey → SerializedUser → Bool
  | FilterKey.is_friends, s => s.is_friends
  | FilterKey.is_follower, s => s.is_follower
  | FilterKey.is_followed, s => s.is_followed

/-- Lexicographic order on character lists (by code point), the order
the database applies to username columns. -/
def charListLe : List Char → List Char → Bool
  | [], _ => true
  | _ :: _, [] => false
  | a :: as, b :: bs =>
    if a.toNat < b.toNat then true
    else if a.toNat = b.toNat then charListLe as bs
    else false

/-- Username comparison for the `order_by` on the username column. -/
def usernameLe (a b : String) : Bool :=
  charListLe a.data b.data

/-- Insertion step of the username sort (`order_by` on username). -/
def insertByUsername (u : User) : List User → List User
  | [] => [u]
  | v :: vs =>
    if usernameLe u.username v.username then u :: v :: vs
    else v :: insertByUsername u vs

/-- Stable sort of user rows by ascending username. -/
def sortByUsername : List User → List User
  | [] => []
  | u :: us => insertByUsername u (sortByUsername us)

/-- `UsersViewSet.get_queryset` (views.py lines 43-44):
filter the active users and order them by username. -/
def get_queryset (users : List User) : List User :=
  sortByUsername (users.filter (fun u => u.is_active))

/-- `self.filter_queryset(...)` (views.py line 140): the configured
filter backends (search / `UsersFilter`, external DRF infrastructure
configured by request query parameters) keep the rows matching the
request predicate `q`, preserving order. -/
def filter_queryset (q : User → Bool) (l : List User) : List User :=
  l.filter q

/-- `self.paginate_queryset(...)`: the page-number paginator returns
the page slice of size `pageSize` at (0-based) index `pageNum`. -/
def paginate (pageSize pageNum : Nat) (l : List α) : List α :=
  (l.drop (pageSize * pageNum)).take pageSize

/-- `UsersViewSet._filter_serializer` (views.py lines 132-137): keep
the serialized users whose `filter_key` flag is truthy. -/
def filter_serializer (key : FilterKey) (data : List SerializedUser) :
    List SerializedUser :=
  data.filter (flagOf key)

/-- `UsersViewSet._list_response` (views.py lines 139-150): filter the
active-user queryset with the request filters, paginate it, serialize
the page, and only then drop the rows whose gating flag is false.
`pagination = none` is the unpaginated branch (`page is None`). -/
def list_response (edges : List (Nat × Nat)) (users : List User)
    (viewer : Nat) (q : User → Bool) (pagination : Option (Nat × Nat))
    (key : FilterKey) : List SerializedUser :=
  let queryset := filter_queryset q (get_queryset users)
  match pagination with
  | some pp =>
    filter_serializer key ((paginate pp.1 pp.2 queryset).map (serializeUser edges viewer))
  | none =>
    filter_serializer key (queryset.map (serializeUser edges viewer))

/-- `UsersViewSet.friends` (views.py lines 152-158). -/
def friends_view (edges : List (Nat × Nat)) (users : List User)
    (viewer : Nat) (q : User → Bool) (pagination : Option (Nat × Nat)) :
    List SerializedUser :=
  list_response edges users viewer q pagination FilterKey.is_friends

/-- `UsersViewSet.followers` (views.py lines 160-166). -/
def followers_view (edges : List (Nat × Nat)) (users : List User)
    (viewer : Nat) (q : User → Bool) (pagination : Option (Nat × Nat)) :
    List SerializedUser :=
  list_response edges users viewer q pagination FilterKey.is_follower

/-- `UsersViewSet.followed` (views.py lines 168-174). -/
def followed_view (edges : List (Nat × Nat)) (users : List User)
    (viewer : Nat) (q : User → Bool) (pagination : Option (Nat × Nat)) :
    List SerializedUser :=
  list_response edges users viewer q pagination FilterKey.is_followed

/-- The per-row effect of `UsersViewSet.destroy`: the fetched instance
gets `is_active = False` and is saved; every other row is untouched. -/
def deactivate (targetId : Nat) (u : User) : User :=
  if u.id = targetId then { u with is_active := false } else u

/-- `UsersViewSet.destroy` (views.py lines 66-75): flips the target
row to inactive and answers with a success message; nothing else in
the store is touched. -/
def destroy (targetId : Nat) (st : DBState) : ApiResponse × DBState :=
  ({ http := 200, status := "success", message := "Account is not active now" },
   { st with users := st.users.map (deactivate targetId) })

/-- `UsersViewSet.create` (views.py lines 59-64): an authenticated
caller is rejected with an error body; an anonymous caller falls
through to the framework mixin.  The anonymous branch is external
infrastructure (DRF `CreateModelMixin`); modelled from the spec
(section 3, User lifecycle: "created on registration") as inserting
the new row. -/
def create (isAnonymous : Bool) (newUser : User) (st : DBState) :
    ApiResponse × DBState :=
  if !isAnonymous then
    ({ http := 200, status := "error", message := "you already signed up" }, st)
  else
    ({ http := 201, status := "success", message := "created" },
     { st with users := st.users ++ [newUser] })

/-- The body fields of a password-change request
(the old_password and new_password fields of `request.data`);
`none` is an absent field. -/
structure PwRequest where
  old_password : Option String
  new_password : Option String
deriving Repr, DecidableEq

/-- The three response shapes of `change_password`: the success body,
the HTTP 400 wrong-password body, and the HTTP 400 serializer-errors
body. -/
inductive PwResponse where
  | success
  | wrongPassword
  | validationErrors
deriving Repr, DecidableEq

/-- Modelled from the spec: `ChangePasswordSerializer` lives in
Accounts/serializers.py, which is not part of the sources; spec
section 7 has `ValidationError` stand for bad input shape, so the
request body is valid exactly when both password fields are present. -/
def change_password_valid (r : PwRequest) : Bool :=
  r.old_password.isSome && r.new_password.isSome

/-- `instance.check_password(p)`: verify the supplied plaintext
against the stored credential (the hash is abstracted away: the field
stores the password the hash verifies). -/
def check_password (p : String) (u : User) : Bool :=
  p == u.password

/-- `instance.set_password(p)` followed by `instance.save()`. -/
def set_password (p : String) (u : User) : User :=
  { u with password := p }

/-- `UsersViewSet.change_password` (views.py lines 77-96). -/
def change_password (r : PwRequest) (u : User) : PwResponse × User :=
  if change_password_valid r then
    if !check_password (r.old_password.getD "") u then
      (PwResponse.wrongPassword, u)
    else
      (PwResponse.success, set_password (r.new_password.getD "") u)
  else
    (PwResponse.validationErrors, u)

/-- The requesting user as the post serializer sees it
(the request user taken from the serializer context). -/
inductive Requester where
  | anonymous
  | auth (uid : Nat)
deriving Repr, DecidableEq

/-- Modelled from the spec: `Post.is_already_liked` lives in
Posts/models.py, which is not part of the sources; spec section 3 has
a post hold a liked-by list, so the check is membership of the user in
that list. -/
def is_already_liked (p : PostObj) (uid : Nat) : Bool :=
  p.liked_by.contains uid

/-- `PostSerializer.get_is_liked` (serializers.py lines 12-16). -/
def get_is_liked (req : Requester) (p : PostObj) : Bool :=
  match req with
  | Requester.anonymous => false
  | Requester.auth uid => is_already_liked p uid

/-! ## Helper lemmas -/

lemma pyEq_vstr_vint (s : String) (n : Nat) :
    pyEq (PyVal.vstr s) (PyVal.vint n) = false := rfl

lemma mem_insertByUsername {u v : User} {l : List User} :
    u ∈ insertByUsername v l ↔ u = v ∨ u ∈ l := by
  induction l with
  | nil => simp [insertByUsername]
  | cons w ws ih =>
    rw [insertByUsername]
    split
    · simp
    · rw [List.mem_cons, ih, List.mem_cons]
      tauto

lemma mem_sortByUsername {u : User} {l : List User} :
    u ∈ sortByUsername l ↔ u ∈ l := by
  induction l with
  | nil => exact Iff.rfl
  | cons w ws ih =>
    rw [sortByUsername, mem_insertByUsername, ih, List.mem_cons]

lemma mem_get_queryset {u : User} {users : List User} :
    u ∈ get_queryset users ↔ (u ∈ users ∧ u.is_active = true) := by
  rw [get_queryset, mem_sortByUsername, List.mem_filter]

/-- Any serialized row a relationship view returns comes from an
active user row of the store. -/
lemma exists_source_of_mem_list_response
    {edges : List (Nat × Nat)} {users : List User} {viewer : Nat}
    {q : User → Bool} {pg : Option (Nat × Nat)} {key : FilterKey}
    {s : SerializedUser} (hs : s ∈ list_response edges users viewer q pg key) :
    ∃ u, u ∈ get_queryset users ∧ s = serializeUser edges viewer u := by
  cases pg with
  | none =>
    have h1 := (List.mem_filter.mp hs).1
    obtain ⟨u, hu, hsu⟩ := List.mem_map.mp h1
    exact ⟨u, (List.mem_filter.mp hu).1, hsu.symm⟩
  | some pp =>
    have h1 := (List.mem_filter.mp hs).1
    obtain ⟨u, hu, hsu⟩ := List.mem_map.mp h1
    have h2 : u ∈ filter_queryset q (get_queryset users) :=
      List.mem_of_mem_drop (List.mem_of_mem_take hu)
    exact ⟨u, (List.mem_filter.mp h2).1, hsu.symm⟩

lemma add_friend_vstr_eq (A B : Nat) (s : String) (hs : strToNat? s = some B)
    (hme : s ≠ "me") (edges : List (Nat × Nat)) :
    add_friend A (PyVal.vstr s) edges =
      if (A, B) ∈ edges then
        some ({ http := 200, status := "error",
                message := "user already your friend" }, edges)
      else
        some ({ http := 200, status := "success",
                message := "friend added" }, edges ++ [(A, B)]) := by
  have h1 : (pyEq (PyVal.vstr s) (PyVal.vstr "me")
      || pyEq (PyVal.vstr s) (PyVal.vint A)) = false := by
    simp [pyEq, hme]
  rw [add_friend, h1]
  simp only [Bool.false_eq_true, if_false, resolve_id, hs]
  by_cases hm : (A, B) ∈ edges
  · simp [get_or_create, hm]
  · simp [get_or_create, hm]

lemma not_mem_filter_eq_self (A B : Nat) (edges : List (Nat × Nat))
    (hm : (A, B) ∉ edges) :
    edges.filter (fun e => e ≠ (A, B)) = edges := by
  apply List.filter_eq_self.mpr
  intro a ha
  simp only [ne_eq, decide_eq_true_eq]
  intro hcontra
  exact hm (hcontra ▸ ha)

lemma remove_friend_vstr_eq (A B : Nat) (s : String) (hs : strToNat? s = some B)
    (hme : s ≠ "me") (edges : List (Nat × Nat)) :
    remove_friend A (PyVal.vstr s) edges =
      if (A, B) ∈ edges then
        some ({ http := 200, status := "success",
                message := "friend removed" }, edges.filter (fun e => e ≠ (A, B)))
      else
        some ({ http := 200, status := "error",
                message := "user is not your friend" }, edges) := by
  have h1 : (pyEq (PyVal.vstr s) (PyVal.vstr "me")
      || pyEq (PyVal.vstr s) (PyVal.vint A)) = false := by
    simp [pyEq, hme]
  rw [remove_friend, h1]
  simp only [Bool.false_eq_true, if_false, resolve_id, hs]
  by_cases hm : (A, B) ∈ edges
  · have hc : edges.count (A, B) ≠ 0 := by
      intro h0
      exact List.not_mem_of_count_eq_zero h0 hm
    simp [delete_edges, hc, hm]
  · have hc : edges.count (A, B) = 0 := List.count_eq_zero_of_not_mem hm
    simp [delete_edges, hc, hm, not_mem_filter_eq_self A B edges hm]
    intro a b hab haA hbB
    subst haA
    subst hbB
    exact hm hab

/-! ## Claim theorems -/

/-- C2 (code evaluated at the failing input): the self-befriending
guard compares the URL string `pk` with the integer `request.user.id`,
which is always false in Python, so a user who posts their own numeric
id as `pk` creates (and can delete) a self-edge and gets a success
response instead of the InvalidOperation error; only the literal
literal "me" form is caught. -/
theorem add_friend_self_id_string_bug :
    add_friend 5 (PyVal.vstr "5") [] =
      some ({ http := 200, status := "success",
              message := "friend added" }, [(5, 5)])
    ∧ remove_friend 5 (PyVal.vstr "5") [(5, 5)] =
      some ({ http := 200, status := "success",
              message := "friend removed" }, [])
    ∧ add_friend 5 (PyVal.vstr "me") [] =
      some ({ http := 200, status := "error",
              message := "you can\x27t befriend yourself" }, [])
    ∧ remove_friend 5 (PyVal.vstr "me") [(5, 5)] =
      some ({ http := 200, status := "error",
              message := "you can\x27t remove yourself from friends" }, [(5, 5)]) := by
  refine ⟨?_, ?_, ?_, ?_⟩ <;> rfl

/-- C3: for distinct users A and B (with `pk` the URL string of
the id of B), `add_friend` reports created ("friend added") exactly when
the edge (A, B) was absent and already-existed ("user already your
friend") when it was present; `remove_friend` reports removed
("friend removed") exactly when the edge was present and
did-not-exist ("user is not your friend") when absent; and the two
double-call sequences behave accordingly. -/
theorem add_remove_edge_reporting (A B : Nat) (s : String) (hAB : A ≠ B)
    (hs : strToNat? s = some B) (hme : s ≠ "me") (edges : List (Nat × Nat)) :
    ((A, B) ∉ edges →
      add_friend A (PyVal.vstr s) edges =
        some ({ http := 200, status := "success",
                message := "friend added" }, edges ++ [(A, B)])
      ∧ add_friend A (PyVal.vstr s) (edges ++ [(A, B)]) =
        some ({ http := 200, status := "error",
                message := "user already your friend" }, edges ++ [(A, B)]))
    ∧ ((A, B) ∈ edges →
      add_friend A (PyVal.vstr s) edges =
        some ({ http := 200, status := "error",
                message := "user already your friend" }, edges))
    ∧ ((A, B) ∈ edges →
      remove_friend A (PyVal.vstr s) edges =
        some ({ http := 200, status := "success",
                message := "friend removed" }, edges.filter (fun e => e ≠ (A, B)))
      ∧ remove_friend A (PyVal.vstr s) (edges.filter (fun e => e ≠ (A, B))) =
        some ({ http := 200, status := "error",
                message := "user is not your friend" }, edges.filter (fun e => e ≠ (A, B))))
    ∧ ((A, B) ∉ edges →
      remove_friend A (PyVal.vstr s) edges =
        some ({ http := 200, status := "error",
                message := "user is not your friend" }, edges)) := by
  refine ⟨?_, ?_, ?_, ?_⟩
  · intro hm
    constructor
    · rw [add_friend_vstr_eq A B s hs hme, if_neg hm]
    · rw [add_friend_vstr_eq A B s hs hme, if_pos (by simp)]
  · intro hm
    rw [add_friend_vstr_eq A B s hs hme, if_pos hm]
  · intro hm
    have hnot : (A, B) ∉ edges.filter (fun e => e ≠ (A, B)) := by
      simp [List.mem_filter]
    constructor
    · rw [remove_friend_vstr_eq A B s hs hme, if_pos hm]
    · rw [remove_friend_vstr_eq A B s hs hme, if_neg hnot]
  · intro hm
    rw [remove_friend_vstr_eq A B s hs hme, if_neg hm]

/-- C3 witness: the theorem applied to users 1 and 2 on the empty and
the one-edge store. -/
theorem add_remove_edge_reporting_check :
    add_friend 1 (PyVal.vstr "2") [] =
      some ({ http := 200, status := "success",
              message := "friend added" }, [(1, 2)])
    ∧ add_friend 1 (PyVal.vstr "2") [(1, 2)] =
      some ({ http := 200, status := "error",
              message := "user already your friend" }, [(1, 2)]) := by
  have h := add_remove_edge_reporting 1 2 "2" (by decide) (by rfl)
    (by decide) []
  exact h.1 (by simp)

/-- C4 counterexample: when the edge already exists `add_friend`
answers with body status "error" (not "success"), and so does
`remove_friend` when the edge does not exist — the claim calls these
outcomes success-status responses. -/
theorem edge_outcome_status_counterexample :
    (add_friend 1 (PyVal.vstr "2") [(1, 2)]).map (fun x => x.1.status) = some "error"
    ∧ (add_friend 1 (PyVal.vstr "2") [(1, 2)]).map (fun x => x.1.status) ≠ some "success"
    ∧ (remove_friend 1 (PyVal.vstr "2") []).map (fun x => x.1.status) = some "error"
    ∧ (remove_friend 1 (PyVal.vstr "2") []).map (fun x => x.1.status) ≠ some "success" := by
  refine ⟨rfl, by decide, rfl, by decide⟩

/-- C4 amended: the already-exists outcome of `add_friend` and the
does-not-exist outcome of `remove_friend` are HTTP 200 responses
carrying an informational message, but their body status field is
"error", not "success"; the store is left unchanged. -/
theorem edge_idempotent_outcomes_error_responses (A B : Nat) (s : String)
    (hs : strToNat? s = some B) (hme : s ≠ "me") (edges : List (Nat × Nat)) :
    ((A, B) ∈ edges →
      add_friend A (PyVal.vstr s) edges =
        some ({ http := 200, status := "error",
                message := "user already your friend" }, edges))
    ∧ ((A, B) ∉ edges →
      remove_friend A (PyVal.vstr s) edges =
        some ({ http := 200, status := "error",
                message := "user is not your friend" }, edges)) := by
  constructor
  · intro hm
    rw [add_friend_vstr_eq A B s hs hme, if_pos hm]
  · intro hm
    rw [remove_friend_vstr_eq A B s hs hme, if_neg hm]

/-- C4 witness: the amended theorem applied to users 1 and 2. -/
theorem edge_idempotent_outcomes_error_responses_check :
    add_friend 1 (PyVal.vstr "2") [(1, 2)] =
      some ({ http := 200, status := "error",
              message := "user already your friend" }, [(1, 2)])
    ∧ remove_friend 1 (PyVal.vstr "2") [] =
      some ({ http := 200, status := "error",
              message := "user is not your friend" }, []) := by
  have h := edge_idempotent_outcomes_error_responses 1 2 "2" (by rfl)
    (by decide) [(1, 2)]
  have h2 := edge_idempotent_outcomes_error_responses 1 2 "2" (by rfl)
    (by decide) []
  exact ⟨h.1 (by simp), h2.2 (by simp)⟩

/-- C6: `delete_edges` (the body of `remove_friend`) removes exactly
the directed edge (A, B) and nothing else, and `get_or_create` (the
body of `add_friend`) inserts exactly (A, B) and nothing else; in
particular, for distinct A and B the reverse edge (B, A) is untouched
by both. -/
theorem edge_ops_single_edge_frame (A B : Nat) (hAB : A ≠ B)
    (edges : List (Nat × Nat)) :
    (∀ e, e ∈ (delete_edges A B edges).1 ↔ (e ∈ edges ∧ e ≠ (A, B)))
    ∧ (∀ e, e ∈ (get_or_create A B edges).1 ↔ (e ∈ edges ∨ e = (A, B)))
    ∧ ((B, A) ∈ (delete_edges A B edges).1 ↔ (B, A) ∈ edges)
    ∧ ((B, A) ∈ (get_or_create A B edges).1 ↔ (B, A) ∈ edges) := by
  have hdel : ∀ e, e ∈ (delete_edges A B edges).1 ↔ (e ∈ edges ∧ e ≠ (A, B)) := by
    intro e
    simp [delete_edges, List.mem_filter]
  have hadd : ∀ e, e ∈ (get_or_create A B edges).1 ↔ (e ∈ edges ∨ e = (A, B)) := by
    intro e
    by_cases hm : (A, B) ∈ edges
    · simp only [get_or_create, if_pos hm]
      constructor
      · exact Or.inl
      · rintro (h | h)
        · exact h
        · exact h ▸ hm
    · simp [get_or_create, hm, List.mem_append]
  have hBA : ((B, A) : Nat × Nat) ≠ (A, B) :=
    fun h => hAB (congrArg Prod.snd h)
  refine ⟨hdel, hadd, ?_, ?_⟩
  · rw [hdel (B, A)]
    exact ⟨fun h => h.1, fun h => ⟨h, hBA⟩⟩
  · rw [hadd (B, A)]
    exact ⟨fun h => h.elim id (fun h2 => absurd h2 hBA), Or.inl⟩

/-- C6 witness: the frame theorem applied to users 1 and 2 on the
store holding both directions. -/
theorem edge_ops_single_edge_frame_check :
    ((1, 2) ∈ (delete_edges 1 2 [(1, 2), (2, 1)]).1 ↔
      ((1, 2) ∈ [(1, 2), (2, 1)] ∧ ((1, 2) : Nat × Nat) ≠ (1, 2)))
    ∧ ((2, 1) ∈ (delete_edges 1 2 [(1, 2), (2, 1)]).1 ↔ (2, 1) ∈ [(1, 2), (2, 1)]) := by
  have h := edge_ops_single_edge_frame 1 2 (by decide) [(1, 2), (2, 1)]
  exact ⟨h.1 (1, 2), h.2.2.1⟩

/-- C9: an authenticated (non-anonymous) caller of `create` gets the
"you already signed up" error body and the store is unchanged;
registration inserts the new user only for an anonymous caller. -/
theorem create_requires_anonymous (newUser : User) (st : DBState) :
    create false newUser st =
      ({ http := 200, status := "error",
         message := "you already signed up" }, st)
    ∧ (create false newUser st).2.users = st.users
    ∧ create true newUser st =
      ({ http := 201, status := "success", message := "created" },
       { st with users := st.users ++ [newUser] }) :=
  ⟨rfl, rfl, rfl⟩

/-- C10: the serialized `is_liked` field is always false for an
anonymous requester, and for an authenticated requester it is exactly
membership of that user in the liked-by set of the post. -/
theorem get_is_liked_spec (p : PostObj) (uid : Nat) :
    get_is_liked Requester.anonymous p = false
    ∧ (get_is_liked (Requester.auth uid) p = true ↔ uid ∈ p.liked_by) := by
  constructor
  · rfl
  · simp [get_is_liked, is_already_liked, List.elem_iff]

/-- C1: a candidate on the evaluated page appears in the friends view
exactly when both directed edges exist (candidate follows viewer and
viewer follows candidate), and exactly when it appears in both the
followers view and the followed view over the same page. -/
theorem friends_view_iff_mutual_edges (edges : List (Nat × Nat))
    (users : List User) (viewer : Nat) (q : User → Bool) (ps pn : Nat)
    (u : User)
    (hu : u ∈ paginate ps pn (filter_queryset q (get_queryset users))) :
    (serializeUser edges viewer u ∈ friends_view edges users viewer q (some (ps, pn))
      ↔ ((u.id, viewer) ∈ edges ∧ (viewer, u.id) ∈ edges))
    ∧ (serializeUser edges viewer u ∈ friends_view edges users viewer q (some (ps, pn))
      ↔ (serializeUser edges viewer u ∈ followers_view edges users viewer q (some (ps, pn))
        ∧ serializeUser edges viewer u ∈ followed_view edges users viewer q (some (ps, pn)))) := by
  have hmem : serializeUser edges viewer u ∈
      (paginate ps pn (filter_queryset q (get_queryset users))).map
        (serializeUser edges viewer) :=
    List.mem_map_of_mem _ hu
  have hfriends :
      serializeUser edges viewer u ∈ friends_view edges users viewer q (some (ps, pn))
        ↔ ((u.id, viewer) ∈ edges ∧ (viewer, u.id) ∈ edges) := by
    rw [show friends_view edges users viewer q (some (ps, pn))
          = filter_serializer FilterKey.is_friends
              ((paginate ps pn (filter_queryset q (get_queryset users))).map
                (serializeUser edges viewer)) from rfl,
      filter_serializer, List.mem_filter,
      show flagOf FilterKey.is_friends (serializeUser edges viewer u)
          = (decide ((u.id, viewer) ∈ edges) && decide ((viewer, u.id) ∈ edges)) from rfl]
    simp [hmem]
  have hfollowers :
      serializeUser edges viewer u ∈ followers_view edges users viewer q (some (ps, pn))
        ↔ (u.id, viewer) ∈ edges := by
    rw [show followers_view edges users viewer q (some (ps, pn))
          = filter_serializer FilterKey.is_follower
              ((paginate ps pn (filter_queryset q (get_queryset users))).map
                (serializeUser edges viewer)) from rfl,
      filter_serializer, List.mem_filter,
      show flagOf FilterKey.is_follower (serializeUser edges viewer u)
          = decide ((u.id, viewer) ∈ edges) from rfl]
    simp [hmem]
  have hfollowed :
      serializeUser edges viewer u ∈ followed_view edges users viewer q (some (ps, pn))
        ↔ (viewer, u.id) ∈ edges := by
    rw [show followed_view edges users viewer q (some (ps, pn))
          = filter_serializer FilterKey.is_followed
              ((paginate ps pn (filter_queryset q (get_queryset users))).map
                (serializeUser edges viewer)) from rfl,
      filter_serializer, List.mem_filter,
      show flagOf FilterKey.is_followed (serializeUser edges viewer u)
          = decide ((viewer, u.id) ∈ edges) from rfl]
    simp [hmem]
  refine ⟨hfriends, ?_⟩
  rw [hfriends, hfollowers, hfollowed]

/-- C1 witness: viewer 1 and candidate 2 with both edges present, on a
one-user page. -/
theorem friends_view_iff_mutual_edges_check :
    (serializeUser [(2, 1), (1, 2)] 1
        { id := 2, username := "bob", email := "b", password := "pw",
          is_active := true, last_login := 0, last_request := 0 }
      ∈ friends_view [(2, 1), (1, 2)]
          [{ id := 2, username := "bob", email := "b", password := "pw",
             is_active := true, last_login := 0, last_request := 0 }]
          1 (fun _ => true) (some (10, 0)))
    ↔ (((2, 1) : Nat × Nat) ∈ [(2, 1), (1, 2)]
        ∧ ((1, 2) : Nat × Nat) ∈ [(2, 1), (1, 2)]) :=
  (friends_view_iff_mutual_edges [(2, 1), (1, 2)]
    [{ id := 2, username := "bob", email := "b", password := "pw",
       is_active := true, last_login := 0, last_request := 0 }]
    1 (fun _ => true) 10 0
    { id := 2, username := "bob", email := "b", password := "pw",
      is_active := true, last_login := 0, last_request := 0 }
    (by decide)).1

/-- C5: every relationship view filters by the gating flag only after
the page was sliced from the (request-filtered, username-ordered)
active-user collection, the returned page never exceeds the page
size, and there are stores where the returned page is strictly
shorter than the page size although at least a full page of matching
users exists overall. -/
theorem flag_filter_after_pagination :
    (∀ (edges : List (Nat × Nat)) (users : List User) (viewer : Nat)
       (q : User → Bool) (ps pn : Nat) (key : FilterKey),
      list_response edges users viewer q (some (ps, pn)) key
        = filter_serializer key
            ((paginate ps pn (filter_queryset q (get_queryset users))).map
              (serializeUser edges viewer))
      ∧ (list_response edges users viewer q (some (ps, pn)) key).length ≤ ps)
    ∧ (∃ (edges : List (Nat × Nat)) (users : List User) (viewer ps pn : Nat),
        (friends_view edges users viewer (fun _ => true) (some (ps, pn))).length < ps
        ∧ ps ≤ (filter_serializer FilterKey.is_friends
            ((filter_queryset (fun _ => true) (get_queryset users)).map
              (serializeUser edges viewer))).length) := by
  constructor
  · intro edges users viewer q ps pn key
    refine ⟨rfl, ?_⟩
    calc (list_response edges users viewer q (some (ps, pn)) key).length
        ≤ ((paginate ps pn (filter_queryset q (get_queryset users))).map
            (serializeUser edges viewer)).length := List.length_filter_le _ _
      _ ≤ ps := by
          rw [List.length_map, paginate, List.length_take]
          exact Nat.min_le_left _ _
  · refine ⟨[(2, 9), (9, 2), (3, 9), (9, 3)],
      [{ id := 1, username := "a", email := "e1", password := "p",
         is_active := true, last_login := 0, last_request := 0 },
       { id := 2, username := "b", email := "e2", password := "p",
         is_active := true, last_login := 0, last_request := 0 },
       { id := 3, username := "c", email := "e3", password := "p",
         is_active := true, last_login := 0, last_request := 0 }],
      9, 2, 0, by decide, by decide⟩

/-- C7: `destroy` only flips the `is_active` flag of the target row to
false: the response is the success body, edges and posts are
untouched, no user row is removed, every other attribute of every row
is unchanged (rows of other ids are unchanged entirely), and
afterwards no active-user listing — the base queryset or any
relationship view of any viewer — contains a row with the target
id. -/
theorem destroy_soft_delete_frame (targetId : Nat) (st : DBState) :
    (destroy targetId st).1 =
      { http := 200, status := "success", message := "Account is not active now" }
    ∧ (destroy targetId st).2.edges = st.edges
    ∧ (destroy targetId st).2.posts = st.posts
    ∧ (destroy targetId st).2.users.length = st.users.length
    ∧ (destroy targetId st).2.users = st.users.map (deactivate targetId)
    ∧ (∀ u : User, (deactivate targetId u).id = u.id
        ∧ (deactivate targetId u).username = u.username
        ∧ (deactivate targetId u).email = u.email
        ∧ (deactivate targetId u).password = u.password
        ∧ (deactivate targetId u).last_login = u.last_login
        ∧ (deactivate targetId u).last_request = u.last_request)
    ∧ (∀ u : User, u.id = targetId → (deactivate targetId u).is_active = false)
    ∧ (∀ u : User, u.id ≠ targetId → deactivate targetId u = u)
    ∧ (∀ u : User, u ∈ get_queryset (destroy targetId st).2.users → u.id ≠ targetId)
    ∧ (∀ (viewer : Nat) (q : User → Bool) (pg : Option (Nat × Nat))
        (key : FilterKey) (s : SerializedUser),
        s ∈ list_response (destroy targetId st).2.edges
              (destroy targetId st).2.users viewer q pg key
          → s.id ≠ targetId) := by
  have hattr : ∀ u : User, (deactivate targetId u).id = u.id
      ∧ (deactivate targetId u).username = u.username
      ∧ (deactivate targetId u).email = u.email
      ∧ (deactivate targetId u).password = u.password
      ∧ (deactivate targetId u).last_login = u.last_login
      ∧ (deactivate targetId u).last_request = u.last_request := by
    intro u
    rw [deactivate]
    split <;> exact ⟨rfl, rfl, rfl, rfl, rfl, rfl⟩
  have hact : ∀ u : User, u ∈ get_queryset (destroy targetId st).2.users →
      u.id ≠ targetId := by
    intro u hu
    have h1 := mem_get_queryset.mp hu
    obtain ⟨v, hv, hvd⟩ := List.mem_map.mp h1.1
    intro hid
    by_cases hvt : v.id = targetId
    · rw [← hvd, deactivate, if_pos hvt] at h1
      exact Bool.false_ne_true h1.2
    · rw [← hvd, deactivate, if_neg hvt] at hid
      exact hvt hid
  refine ⟨rfl, rfl, rfl, ?_, rfl, hattr, ?_, ?_, hact, ?_⟩
  · show (st.users.map (deactivate targetId)).length = st.users.length
    exact List.length_map _ _
  · intro u hid
    rw [deactivate, if_pos hid]
  · intro u hid
    rw [deactivate, if_neg hid]
  · intro viewer q pg key s hs
    obtain ⟨u, hu, hsu⟩ := exists_source_of_mem_list_response hs
    rw [hsu]
    exact hact u hu

/-- A concrete two-user store used to evaluate `destroy`. -/
def exampleUserA : User :=
  { id := 1, username := "a", email := "e1", password := "p",
    is_active := true, last_login := 0, last_request := 0 }

/-- Second row of the concrete store. -/
def exampleUserB : User :=
  { id := 2, username := "b", email := "e2", password := "p",
    is_active := true, last_login := 0, last_request := 0 }

/-- The concrete store: both users, one edge, one post. -/
def exampleStore : DBState :=
  { users := [exampleUserA, exampleUserB]
    edges := [(1, 2)]
    posts := [{ id := 7, author_id := 1, text := "t", liked_by := [2] }] }

/-- C7 witness: deactivating user 1 in a two-user store with an edge
and a post. -/
theorem destroy_soft_delete_frame_check :
    (destroy 1 exampleStore).2.edges = [(1, 2)]
    ∧ (deactivate 1 exampleUserA).is_active = false := by
  have h := destroy_soft_delete_frame 1 exampleStore
  exact ⟨h.2.1, h.2.2.2.2.2.2.1 exampleUserA rfl⟩

/-- C8 counterexample: with a request body that fails serializer
validation (missing new password) and a wrong current password, the
operation fails with the serializer-errors body, not the
wrong-password (AuthenticationError) body — so the claimed "whenever
the supplied current password does not verify" does not hold
unconditionally. -/
theorem change_password_wrong_pw_not_always_auth_error :
    change_password { old_password := some "bad", new_password := none }
        { id := 1, username := "alice", email := "a", password := "secret",
          is_active := true, last_login := 0, last_request := 0 }
      = (PwResponse.validationErrors,
         { id := 1, username := "alice", email := "a", password := "secret",
           is_active := true, last_login := 0, last_request := 0 })
    ∧ check_password "bad"
        { id := 1, username := "alice", email := "a", password := "secret",
          is_active := true, last_login := 0, last_request := 0 } = false
    ∧ (change_password { old_password := some "bad", new_password := none }
        { id := 1, username := "alice", email := "a", password := "secret",
          is_active := true, last_login := 0, last_request := 0 }).1
      ≠ PwResponse.wrongPassword := by
  refine ⟨rfl, by decide, by decide⟩

/-- C8 amended: when the request body passes serializer validation,
a non-verifying current password yields the wrong-password error and
leaves the stored password unchanged, and a verifying one updates the
stored password; when validation fails the response is the serializer
errors and the stored password is also unchanged — in every case the
stored password changes only if the supplied current password
verifies. -/
theorem change_password_auth_error_amended (r : PwRequest) (u : User) :
    (change_password_valid r = true →
      check_password (r.old_password.getD "") u = false →
      change_password r u = (PwResponse.wrongPassword, u))
    ∧ (change_password_valid r = true →
      check_password (r.old_password.getD "") u = true →
      change_password r u = (PwResponse.success, set_password (r.new_password.getD "") u))
    ∧ (change_password_valid r = false →
      change_password r u = (PwResponse.validationErrors, u))
    ∧ ((change_password r u).2 ≠ u →
      check_password (r.old_password.getD "") u = true) := by
  refine ⟨?_, ?_, ?_, ?_⟩
  · intro hv hc
    rw [change_password, if_pos hv, hc]
    rfl
  · intro hv hc
    rw [change_password, if_pos hv, hc]
    rfl
  · intro hv
    rw [change_password, if_neg (by rw [hv]; exact Bool.false_ne_true)]
  · intro hne
    by_cases hc : check_password (r.old_password.getD "") u = true
    · exact hc
    · exfalso
      apply hne
      have hc2 : check_password (r.old_password.getD "") u = false :=
        Bool.eq_false_iff.mpr hc
      by_cases hv : change_password_valid r = true
      · rw [change_password, if_pos hv, hc2]
        rfl
      · rw [change_password,
          if_neg (by rw [Bool.eq_false_iff.mpr hv]; exact Bool.false_ne_true)]

/-- C8 witness: the amended theorem applied to a user with stored
password "secret": a wrong current password is rejected with the
wrong-password body, the right one updates the stored password. -/
theorem change_password_auth_error_amended_check :
    change_password { old_password := some "bad", new_password := some "x" }
        { id := 1, username := "alice", email := "a", password := "secret",
          is_active := true, last_login := 0, last_request := 0 }
      = (PwResponse.wrongPassword,
         { id := 1, username := "alice", email := "a", password := "secret",
           is_active := true, last_login := 0, last_request := 0 })
    ∧ change_password { old_password := some "secret", new_password := some "x" }
        { id := 1, username := "alice", email := "a", password := "secret",
          is_active := true, last_login := 0, last_request := 0 }
      = (PwResponse.success,
         set_password "x"
           { id := 1, username := "alice", email := "a", password := "secret",
             is_active := true, last_login := 0, last_request := 0 }) :=
  ⟨(change_password_auth_error_amended
      { old_password := some "bad", new_password := some "x" }
      { id := 1, username := "alice", email := "a", password := "secret",
        is_active := true, last_login := 0, last_request := 0 }).1
      (by decide) (by decide),
   (change_password_auth_error_amended
      { old_password := some "secret", new_password := some "x" }
      { id := 1, username := "alice", email := "a", password := "secret",
        is_active := true, last_login := 0, last_request := 0 }).2.1
      (by decide) (by decide)⟩

end SocialNetwork
